import Mathlib

/-!
Verification development for the ai-music-backend repository.

The embedding below models the Flask application in `app.py` (the main,
"Final Corrected" backend; `backend/app.py` is an earlier duplicate of the
same routes).  Pure transformations (tensor preprocessing, arg-max label
resolution, query building, catalog-record normalization) are translated
directly; external collaborators (cv2, the Keras classifier, Spotify,
Firebase) are modelled as function parameters together with the contracts
the code relies on; Python exceptions are modelled with `Except`, where the
error string stands for Python's `str(e)` of the raised exception.
-/

namespace MusicBackend

/-- A grayscale pixel grid as produced by `cv2.imread(..., cv2.IMREAD_GRAYSCALE)`:
rows of uint8 intensity values (each value is a `Nat` that the uint8 invariant
bounds by 255). -/
abbrev Grid := List (List Nat)

/-- All values of the grid fit in a uint8, i.e. are at most 255. -/
def uint8Grid (g : Grid) : Prop := ∀ row ∈ g, ∀ v ∈ row, v ≤ 255

/-- The grid has exactly `h` rows, each of length `w`. -/
def hasShape (g : Grid) (h w : Nat) : Prop :=
  g.length = h ∧ ∀ row ∈ g, row.length = w

/-- A valid decoded grayscale image: uint8 values, at least one row, and all
rows of one common positive width (resolution at least 1 by 1). -/
def validImage (g : Grid) : Prop :=
  uint8Grid g ∧ 1 ≤ g.length ∧ ∃ w, 1 ≤ w ∧ ∀ row ∈ g, row.length = w

/-- Contract of `cv2.resize(img, (48, 48))` on a uint8 grayscale image
(interpolated resize): from any valid image it returns a 48 by 48 grid of
uint8 values.  The resize itself is an external cv2 routine, so it enters the
theorems as a function assumed to satisfy this contract. -/
def resizeContract (resize : Grid → Grid) : Prop :=
  ∀ g : Grid, validImage g → hasShape (resize g) 48 48 ∧ uint8Grid (resize g)

/-- The tensor preprocessing of `detect_emotion` (app.py lines 96-97), applied
to the already-resized 48 by 48 grid:
`img = cv2.resize(img, (48, 48)) / 255.0` divides every value by 255, then
`np.expand_dims(img.reshape(48, 48, 1), axis=0)` turns every scalar into a
length-1 innermost axis and wraps the whole grid in a batch axis of size 1. -/
def preprocess (resized : Grid) : List (List (List (List ℚ))) :=
  [resized.map (fun row => row.map (fun (v : ℕ) => [(v : ℚ) / 255]))]

/-- The tensor has shape 1 by 48 by 48 by 1. -/
def tensorShapeOk (t : List (List (List (List ℚ)))) : Prop :=
  t.length = 1 ∧ ∀ b ∈ t, b.length = 48 ∧ ∀ r ∈ b, r.length = 48 ∧ ∀ c ∈ r, c.length = 1

/-- Every scalar of the tensor lies in the closed interval [0, 1]. -/
def tensorVals01 (t : List (List (List (List ℚ)))) : Prop :=
  ∀ b ∈ t, ∀ r ∈ b, ∀ c ∈ r, ∀ v ∈ c, 0 ≤ v ∧ v ≤ 1

/-- The fixed positional label enumeration (app.py line 40). -/
def emotion_labels : List String :=
  ["Angry", "Disgust", "Fear", "Happy", "Neutral", "Sad", "Surprise"]

/-- Model of `np.argmax` on the prediction vector (the batched prediction is
flattened by numpy, so this is the arg-max of the 7 probabilities): the index
of the first occurrence of the maximum value.  On the empty list numpy raises;
the value 0 returned here is never used at that shape. -/
def argmax : List ℚ → Nat
  | [] => 0
  | x :: xs =>
    if xs = [] then 0
    else if x < xs.getD (argmax xs) 0 then argmax xs + 1 else 0

/-- `i` is the lowest index of `l` achieving the maximum value of `l`. -/
def isFirstMax (l : List ℚ) (i : Nat) : Prop :=
  i < l.length ∧ (∀ j, j < l.length → l.getD j 0 ≤ l.getD i 0) ∧
    ∀ j, j < i → l.getD j 0 < l.getD i 0

/-- Label resolution of `detect_emotion` (app.py line 100):
`emotion = emotion_labels[np.argmax(pred)]`. -/
def resolveLabel (pred : List ℚ) : String :=
  emotion_labels.getD (argmax pred) ""

/-- The query construction of `recommend_music` (app.py line 122):
the f-string `f"{emotion} mood {language} songs {artist}"`. -/
def buildQuery (emotion language artist : String) : String :=
  emotion ++ " mood " ++ language ++ " songs " ++ artist

/-- A raw image asset inside `album.images`; `url` is `none` when the `"url"`
key is absent from the asset object. -/
structure RawAsset where
  url : Option String
deriving DecidableEq

/-- A raw artist object inside `artists`; `name` is `none` when the `"name"`
key is absent. -/
structure RawArtist where
  name : Option String
deriving DecidableEq

/-- The album object; `images` is `none` when the `"images"` key is absent. -/
structure RawAlbum where
  images : Option (List RawAsset)
deriving DecidableEq

/-- A raw catalog track record as `recommend_music` reads it.  Each `Option`
layer models the presence of a dictionary key: `none` means the key is absent
(a Python subscript raises `KeyError`).  `preview_url`'s inner `Option`
distinguishes a JSON `null` value (`some none`) from a string; the inner layer
of `external_urls` is the `"spotify"` key of that sub-object. -/
structure RawTrack where
  name : Option String
  artists : Option (List RawArtist)
  preview_url : Option (Option String)
  external_urls : Option (Option String)
  album : Option RawAlbum
deriving DecidableEq

/-- The normalized track shape built by `recommend_music` (app.py 127-133). -/
structure TrackDTO where
  name : String
  artist : String
  preview : Option String
  url : String
  album : Option String
deriving DecidableEq

/-- The `str(e)` of a Python `KeyError` on key `k`. -/
def keyError (k : String) : String := "KeyError: " ++ k

/-- Projection of one raw record (app.py lines 127-133), with Python's
evaluation order of the dict literal: `t["name"]`, `t["artists"][0]["name"]`,
`t["preview_url"]`, `t["external_urls"]["spotify"]`, then
`t["album"]["images"][0]["url"] if t["album"]["images"] else None`.
An absent key raises (modelled by `Except.error`); only an *empty* image list
is tolerated and mapped to `none`. -/
def normalizeTrack (t : RawTrack) : Except String TrackDTO :=
  match t.name with
  | none => .error (keyError "name")
  | some name =>
    match t.artists with
    | none => .error (keyError "artists")
    | some artists =>
      match artists with
      | [] => .error "IndexError: list index out of range"
      | a0 :: _ =>
        match a0.name with
        | none => .error (keyError "name")
        | some artist =>
          match t.preview_url with
          | none => .error (keyError "preview_url")
          | some preview =>
            match t.external_urls with
            | none => .error (keyError "external_urls")
            | some exts =>
              match exts with
              | none => .error (keyError "spotify")
              | some url =>
                match t.album with
                | none => .error (keyError "album")
                | some album =>
                  match album.images with
                  | none => .error (keyError "images")
                  | some images =>
                    match images with
                    | [] => .ok ⟨name, artist, preview, url, none⟩
                    | asset :: _ =>
                      match asset.url with
                      | none => .error (keyError "url")
                      | some u => .ok ⟨name, artist, preview, url, some u⟩

/-- The `for t in results["tracks"]["items"]` loop of `recommend_music`:
records are projected in input order, and the first raised exception aborts
the whole loop (the handler's `except` then answers for the entire request). -/
def normalizeTracks : List RawTrack → Except String (List TrackDTO)
  | [] => .ok []
  | t :: ts =>
    match normalizeTrack t with
    | .error e => .error e
    | .ok d =>
      match normalizeTracks ts with
      | .error e => .error e
      | .ok ds => .ok (d :: ds)

/-- The JSON object a route returns via `jsonify`: every key the routes of
app.py ever emit, `none` meaning the key is absent from the object. -/
structure JsonBody where
  success : Option Bool
  emotion : Option String
  songs : Option (List TrackDTO)
  uid : Option String
  link : Option String
  message : Option String
  error : Option String
deriving DecidableEq

/-- A response body: a JSON object, or plain text (the `/health` route
returns the bare string `"OK"`, not JSON). -/
inductive Body where
  | json : JsonBody → Body
  | text : String → Body
deriving DecidableEq

/-- `jsonify({"success": False, "error": msg})`. -/
def errBody (msg : String) : JsonBody :=
  ⟨some false, none, none, none, none, none, some msg⟩

/-- `jsonify({"success": True, "emotion": e})`. -/
def emotionBody (e : String) : JsonBody :=
  ⟨some true, some e, none, none, none, none, none⟩

/-- `jsonify({"success": True, "songs": ts})`. -/
def songsBody (ts : List TrackDTO) : JsonBody :=
  ⟨some true, none, some ts, none, none, none, none⟩

/-- `jsonify({"success": True, "uid": u, "message": "Signup successful"})`. -/
def uidBody (u : String) : JsonBody :=
  ⟨some true, none, none, some u, none, some "Signup successful", none⟩

/-- `jsonify({"success": True, "link": l})`. -/
def linkBody (l : String) : JsonBody :=
  ⟨some true, none, none, none, some l, none, none⟩

/-- `jsonify({"message": m})` (the `/` and `/callback` routes). -/
def messageBody (m : String) : JsonBody :=
  ⟨none, none, none, none, none, some m, none⟩

/-- A response: HTTP status code and body. -/
abbrev Resp := Nat × Body

/-- The multipart file of the `/detect` request: `filename` is `none` when
the client sent no filename, `content` the uploaded bytes. -/
structure UploadedFile where
  filename : Option String
  content : List Nat
deriving DecidableEq

/-- A `/detect` request: `image` is the `request.files["image"]` entry,
`none` when the field is absent. -/
structure DetectRequest where
  image : Option UploadedFile
deriving DecidableEq

/-- Whether `model = tf.keras.models.load_model(MODEL_PATH)` succeeded at
startup.  When the `try` at app.py lines 34-38 fails it only prints a warning,
so the process keeps serving but the global name `model` stays unbound; a
later use raises `NameError` ("name 'model' is not defined").  The loaded
case carries the opaque classifier as a function from the input tensor to
the flattened probability vector. -/
inductive ModelState where
  | loaded : (List (List (List (List ℚ))) → List ℚ) → ModelState
  | unloaded : ModelState

/-- The `/detect` handler (app.py lines 74-107).  `imread` models
`cv2.imread(temp_path, cv2.IMREAD_GRAYSCALE)` applied to the bytes that were
just saved at `temp_path` (`none` for an undecodable image); `resize` models
`cv2.resize(img, (48, 48))`.  The second component of the result is the list
of files existing under `/tmp/uploads` after the request, starting from `fs`:
the handler appends the saved temp file and never removes it.  Returns the
status code and JSON body of each exit path of the source. -/
def detect (ms : ModelState) (imread : List Nat → Option Grid)
    (resize : Grid → Grid) (req : DetectRequest) (fs : List String) :
    Resp × List String :=
  match req.image with
  | none => ((400, .json (errBody "No image uploaded")), fs)
  | some file =>
    let filename :=
      match file.filename with
      | none => "uploaded_image.jpg"
      | some s => if s = "" then "uploaded_image.jpg" else s
    let temp_path := "/tmp/uploads/" ++ filename
    let fs1 := fs ++ [temp_path]
    match imread file.content with
    | none => ((400, .json (errBody "Invalid image format")), fs1)
    | some img =>
      let tensor := preprocess (resize img)
      match ms with
      | .unloaded =>
        ((500, .json (errBody "name 'model' is not defined")), fs1)
      | .loaded predict =>
        ((200, .json (emotionBody (resolveLabel (predict tensor)))), fs1)

/-- The JSON body of a `/recommend` request: each field is `none` when the
key is absent from the posted object. -/
structure RecommendBody where
  emotion : Option String
  language : Option String
  artist : Option String
deriving DecidableEq

/-- The `/recommend` handler (app.py lines 111-139).  `search` models
`sp.search(q=query, type="track", limit=5)` reduced to the raw record list
`results["tracks"]["items"]` (or a raised upstream error); `body` is
`request.get_json()` (`none` when the request carried no JSON object, in
which case `data.get` raises on `None`).  The second component records every
query string passed to the catalog client during the request.

`searchResp` is the search-and-normalize stage shared by the handler: the
response once the catalog client has answered (or raised). -/
def searchResp (r : Except String (List RawTrack)) : Resp :=
  match r with
  | .error msg => (500, .json (errBody msg))
  | .ok raws =>
    match normalizeTracks raws with
    | .error msg => (500, .json (errBody msg))
    | .ok tracks => (200, .json (songsBody tracks))

def recommend (search : String → Except String (List RawTrack))
    (body : Option RecommendBody) : Resp × List String :=
  match body with
  | none =>
    ((500, .json (errBody "AttributeError: NoneType object has no attribute get")), [])
  | some data =>
    match data.emotion with
    | none => ((400, .json (errBody "Emotion not provided")), [])
    | some e =>
      if e = "" then ((400, .json (errBody "Emotion not provided")), [])
      else
        let query := buildQuery e (data.language.getD "english") (data.artist.getD "")
        (searchResp (search query), [query])

/-- The `/signup` handler (app.py lines 143-160).  `createUser` models
`auth.create_user`, `saveUser` the Firestore write; a `none` field models a
missing JSON key (`data["email"]` raises `KeyError`, caught as a 500). -/
def signup (createUser : String → String → Except String String)
    (saveUser : String → String → Except String Unit)
    (email password : Option String) : Resp :=
  match email with
  | none => (500, .json (errBody (keyError "email")))
  | some e =>
    match password with
    | none => (500, .json (errBody (keyError "password")))
    | some p =>
      match createUser e p with
      | .error m => (500, .json (errBody m))
      | .ok uid =>
        match saveUser uid e with
        | .error m => (500, .json (errBody m))
        | .ok _ => (200, .json (uidBody uid))

/-- The `/forgot-password` handler (app.py lines 164-175); `genLink` models
`auth.generate_password_reset_link`. -/
def forgotPassword (genLink : String → Except String String)
    (email : Option String) : Resp :=
  match email with
  | none => (500, .json (errBody (keyError "email")))
  | some e =>
    match genLink e with
    | .error m => (500, .json (errBody m))
    | .ok link => (200, .json (linkBody link))

/-- The `/` route (app.py lines 69-71). -/
def home : Resp :=
  (200, .json (messageBody "🎶 AI Music Recommendation Backend Running!"))

/-- The `/callback` route (app.py lines 179-181). -/
def spotifyCallbackRoute : Resp :=
  (200, .json (messageBody "Spotify callback received"))

/-- The `/health` route (app.py lines 185-187): the plain string body `"OK"`
with status 200, not a JSON envelope. -/
def healthRoute : Resp := (200, .text "OK")

/-- How many of the payload keys (`emotion`, `songs`, `uid`, `link`) are
present in the body. -/
def payloadCount (b : JsonBody) : Nat :=
  (if b.emotion.isSome then 1 else 0) + (if b.songs.isSome then 1 else 0) +
    (if b.uid.isSome then 1 else 0) + (if b.link.isSome then 1 else 0)

/-- The envelope invariant on a JSON body: exactly one of a payload field or
the error message is present, and the `success` flag is present and `true`
exactly when the payload is. -/
def envelopeOkB (b : JsonBody) : Bool :=
  (payloadCount b == 1 && b.error == none && b.success == some true) ||
    (payloadCount b == 0 && b.error.isSome && b.success == some false)

/-- The envelope invariant on a response body; a plain-text body is not a
structured envelope. -/
def bodyEnvelopeOkB : Body → Bool
  | .json b => envelopeOkB b
  | .text _ => false

/-! Concrete instantiations of the external collaborators, used by witnesses
and concrete evaluations. -/

/-- A concrete resize (constant 48 by 48 grid of mid-gray pixels). -/
def resizeW : Grid → Grid := fun _ => List.replicate 48 (List.replicate 48 128)

/-- A concrete decoder returning a fixed 48 by 48 black image. -/
def imreadW : List Nat → Option Grid :=
  fun _ => some (List.replicate 48 (List.replicate 48 0))

/-- A concrete classifier putting all mass on index 0. -/
def predictW : List (List (List (List ℚ))) → List ℚ := fun _ => [1, 0, 0, 0, 0, 0, 0]

/-- A concrete `/detect` request carrying a file named `face.jpg`. -/
def reqW : DetectRequest := ⟨some ⟨some "face.jpg", [0, 1, 2]⟩⟩

/-- A concrete catalog client returning no tracks. -/
def searchW : String → Except String (List RawTrack) := fun _ => .ok []

/-- A raw record whose optional `preview_url` key is absent; every other
referenced key is present (album with an empty image list). -/
def trackNoPreviewKey : RawTrack :=
  ⟨some "Song", some [⟨some "Artist"⟩], none,
    some (some "https://open.spotify.com/t"), some ⟨some []⟩⟩

/-- A raw record whose required `name` key is absent, otherwise complete. -/
def trackNoName : RawTrack :=
  ⟨none, some [⟨some "Artist"⟩], some none,
    some (some "https://open.spotify.com/t"), some ⟨some []⟩⟩

/-- A complete raw record with a JSON-null preview value and an empty album
image list. -/
def goodTrack : RawTrack :=
  ⟨some "Song", some [⟨some "Artist"⟩], some none,
    some (some "https://open.spotify.com/t"), some ⟨some []⟩⟩

/-! Helper lemmas. -/

/-- `argmax` returns the lowest index achieving the maximum value. -/
lemma argmax_isFirstMax (l : List ℚ) (hl : l ≠ []) : isFirstMax l (argmax l) := by
  induction l with
  | nil => exact absurd rfl hl
  | cons x xs ih =>
    by_cases hxs : xs = []
    · subst hxs
      have ha : argmax [x] = 0 := by simp [argmax]
      rw [ha]
      refine ⟨Nat.one_pos, ?_, ?_⟩
      · intro j hj
        have : j = 0 := Nat.lt_one_iff.mp hj
        subst this
        exact le_refl _
      · intro j hj
        exact absurd hj (Nat.not_lt_zero j)
    · have IH := ih hxs
      obtain ⟨IH1, IH2, IH3⟩ := IH
      have ha : argmax (x :: xs) =
          if x < xs.getD (argmax xs) 0 then argmax xs + 1 else 0 := by
        simp only [argmax]
        rw [if_neg hxs]
      by_cases hlt : x < xs.getD (argmax xs) 0
      · rw [ha, if_pos hlt]
        refine ⟨?_, ?_, ?_⟩
        · simpa using Nat.succ_lt_succ IH1
        · intro j hj
          cases j with
          | zero =>
            rw [List.getD_cons_zero, List.getD_cons_succ]
            exact le_of_lt hlt
          | succ k =>
            rw [List.getD_cons_succ, List.getD_cons_succ]
            exact IH2 k (by simpa using Nat.lt_of_succ_lt_succ (by simpa using hj))
        · intro j hj
          cases j with
          | zero =>
            rw [List.getD_cons_zero, List.getD_cons_succ]
            exact hlt
          | succ k =>
            rw [List.getD_cons_succ, List.getD_cons_succ]
            exact IH3 k (Nat.lt_of_succ_lt_succ hj)
      · rw [ha, if_neg hlt]
        have hge : xs.getD (argmax xs) 0 ≤ x := not_lt.mp hlt
        refine ⟨Nat.succ_pos _, ?_, ?_⟩
        · intro j hj
          cases j with
          | zero => exact le_refl _
          | succ k =>
            rw [List.getD_cons_succ, List.getD_cons_zero]
            have hk : k < xs.length := by simpa using Nat.lt_of_succ_lt_succ (by simpa using hj)
            exact le_trans (IH2 k hk) hge
        · intro j hj
          exact absurd hj (Nat.not_lt_zero j)

/-- The concrete resize satisfies the cv2 resize contract. -/
lemma resizeW_contract : resizeContract resizeW := by
  intro g _
  refine ⟨⟨by simp [resizeW], ?_⟩, ?_⟩
  · intro row hrow
    rw [List.eq_of_mem_replicate hrow]
    simp
  · intro row hrow v hv
    rw [List.eq_of_mem_replicate hrow] at hv
    rw [List.eq_of_mem_replicate hv]
    norm_num

/-- The query string the `/recommend` handler hands to the catalog client is
exactly the f-string built from emotion, defaulted language and artist. -/
lemma recommend_calls_eq (search : String → Except String (List RawTrack))
    (e : String) (l a : Option String) (he : e ≠ "") :
    (recommend search (some ⟨some e, l, a⟩)).2 =
      [buildQuery e (l.getD "english") (a.getD "")] := by
  simp only [recommend]
  rw [if_neg he]

/-- The tie vector of the claim: both index 0 and index 1 (and index 6) hold
the maximum 0.2, and `argmax` picks index 0. -/
lemma argmax_tie_vector : argmax [0.2, 0.2, 0.1, 0.1, 0.1, 0.1, 0.2] = 0 := by
  set l : List ℚ := [0.2, 0.2, 0.1, 0.1, 0.1, 0.1, 0.2] with hl
  have hfm := argmax_isFirstMax l (by simp [hl])
  have hall : ∀ j : ℕ, l.getD j 0 ≤ 0.2 := by
    intro j
    match j with
    | 0 => rw [hl]; norm_num [List.getD_cons_zero]
    | 1 => rw [hl]; norm_num [List.getD_cons_zero, List.getD_cons_succ]
    | 2 => rw [hl]; norm_num [List.getD_cons_zero, List.getD_cons_succ]
    | 3 => rw [hl]; norm_num [List.getD_cons_zero, List.getD_cons_succ]
    | 4 => rw [hl]; norm_num [List.getD_cons_zero, List.getD_cons_succ]
    | 5 => rw [hl]; norm_num [List.getD_cons_zero, List.getD_cons_succ]
    | 6 => rw [hl]; norm_num [List.getD_cons_zero, List.getD_cons_succ]
    | (k + 7) =>
      rw [List.getD_eq_default]
      · norm_num
      · rw [hl]
        simp
  rcases Nat.eq_zero_or_pos (argmax l) with h0 | hpos
  · exact h0
  · exfalso
    have hlt := hfm.2.2 0 hpos
    have hle := hall (argmax l)
    have h02 : l.getD 0 0 = 0.2 := by rw [hl, List.getD_cons_zero]
    rw [h02] at hlt
    exact absurd (lt_of_lt_of_le hlt hle) (lt_irrefl _)

/-! Claim theorems. -/

/-- C1: for every valid grayscale image of any resolution at least 1 by 1,
the tensor preprocessing of `/detect` (interpolated resize to 48 by 48, then
division of every value by 255, reshape and batch axis) yields a tensor of
shape exactly 1 by 48 by 48 by 1 with every value in [0, 1]. -/
theorem c1_tensor_preprocess (resize : Grid → Grid) (hres : resizeContract resize)
    (img : Grid) (himg : validImage img) :
    tensorShapeOk (preprocess (resize img)) ∧ tensorVals01 (preprocess (resize img)) := by
  obtain ⟨⟨hlen, hrows⟩, hu⟩ := hres img himg
  constructor
  · refine ⟨rfl, ?_⟩
    intro b hb
    simp only [preprocess] at hb
    rw [List.mem_singleton] at hb
    subst hb
    refine ⟨?_, ?_⟩
    · simp only [List.length_map]
      exact hlen
    intro r hr
    obtain ⟨row, hrow, rfl⟩ := List.mem_map.mp hr
    refine ⟨?_, ?_⟩
    · simp only [List.length_map]
      exact hrows row hrow
    intro c hc
    obtain ⟨v, hv, rfl⟩ := List.mem_map.mp hc
    rfl
  · intro b hb
    simp only [preprocess] at hb
    rw [List.mem_singleton] at hb
    subst hb
    intro r hr
    obtain ⟨row, hrow, rfl⟩ := List.mem_map.mp hr
    intro c hc
    obtain ⟨v, hv, rfl⟩ := List.mem_map.mp hc
    intro w hw
    rw [List.mem_singleton] at hw
    subst hw
    constructor
    · positivity
    · rw [div_le_one (by norm_num)]
      exact_mod_cast hu row hrow v hv

/-- Witness for C1 at the 1 by 1 image `[[0]]` and the concrete resize. -/
theorem c1_tensor_preprocess_witness :
    tensorShapeOk (preprocess (resizeW [[0]])) ∧ tensorVals01 (preprocess (resizeW [[0]])) :=
  c1_tensor_preprocess resizeW resizeW_contract [[0]]
    ⟨by unfold uint8Grid; decide, by decide, 1, by decide, by decide⟩

/-- C2: for every probability vector of length 7, label resolution picks the
lowest index achieving the maximum value, and on the fixed enumeration the
tie `[0.2, 0.2, 0.1, 0.1, 0.1, 0.1, 0.2]` resolves to index 0, "Angry". -/
theorem c2_label_resolver :
    (∀ pv : List ℚ, pv.length = 7 → isFirstMax pv (argmax pv)) ∧
      resolveLabel [0.2, 0.2, 0.1, 0.1, 0.1, 0.1, 0.2] = "Angry" := by
  constructor
  · intro pv hpv
    apply argmax_isFirstMax
    intro h
    rw [h] at hpv
    simp at hpv
  · rw [resolveLabel.eq_def, argmax_tie_vector]
    rfl

/-- Witness for C2 at the tie vector of the claim. -/
theorem c2_label_resolver_witness :
    isFirstMax [0.2, 0.2, 0.1, 0.1, 0.1, 0.1, 0.2]
      (argmax [0.2, 0.2, 0.1, 0.1, 0.1, 0.1, 0.2]) :=
  c2_label_resolver.1 [0.2, 0.2, 0.1, 0.1, 0.1, 0.1, 0.2] (by decide)

/-- C3: the `/recommend` query builder deterministically produces exactly
`"<emotion> mood <language> songs <artist>"`, with language defaulting to
"english" and artist to "" when absent (trailing space included); in
particular ("Happy", "english", "") gives "Happy mood english songs " and
("Sad", "hindi", "Arijit") gives "Sad mood hindi songs Arijit". -/
theorem c3_query_builder :
    (∀ (search : String → Except String (List RawTrack)) (e : String)
        (l a : Option String), e ≠ "" →
        (recommend search (some ⟨some e, l, a⟩)).2 =
          [e ++ " mood " ++ l.getD "english" ++ " songs " ++ a.getD ""]) ∧
      buildQuery "Happy" "english" "" = "Happy mood english songs " ∧
      buildQuery "Sad" "hindi" "Arijit" = "Sad mood hindi songs Arijit" := by
  refine ⟨?_, rfl, rfl⟩
  intro search e l a he
  exact recommend_calls_eq search e l a he

/-- Witness for C3: the handler sends exactly "Happy mood english songs "
(with the trailing space) when only the emotion is posted. -/
theorem c3_query_builder_witness :
    (recommend searchW (some ⟨some "Happy", none, none⟩)).2 =
      ["Happy" ++ " mood " ++ (none : Option String).getD "english" ++ " songs " ++
        (none : Option String).getD ""] :=
  c3_query_builder.1 searchW "Happy" none none (by decide)

/-- C4 counterexample: the normalizer does raise on a missing optional field
(a record whose `preview_url` key is absent makes `t["preview_url"]` raise
`KeyError` instead of yielding null), and a record missing the required
`name` key makes the whole normalization raise — so a list holding it and a
complete record yields an error for the entire request instead of the claimed
omission of the bad record. -/
theorem c4_normalizer_counterexample :
    normalizeTrack trackNoPreviewKey = .error (keyError "preview_url") ∧
      normalizeTracks [trackNoName, goodTrack] = .error (keyError "name") ∧
      normalizeTracks [trackNoName, goodTrack] ≠
        .ok [⟨"Song", "Artist", none, "https://open.spotify.com/t", none⟩] := by
  refine ⟨rfl, rfl, ?_⟩
  intro h
  exact Except.noConfusion h

/-- C4 (amended): normalization is order-preserving and maps each record with
all referenced keys present to a TrackDTO — a JSON-null preview value maps to
null and an empty album image list maps to a null albumArtUrl without raising
— but a record missing a referenced key (required `name` here) makes the
whole normalization raise, failing the entire request, rather than being
omitted from the output. -/
theorem c4_normalizer_amended :
    (∀ (t : RawTrack) (d : TrackDTO) (ts : List RawTrack) (ds : List TrackDTO),
        normalizeTrack t = .ok d → normalizeTracks ts = .ok ds →
          normalizeTracks (t :: ts) = .ok (d :: ds)) ∧
      (∀ t : RawTrack, t.name = none →
        ∀ ts, normalizeTracks (t :: ts) = .error (keyError "name")) ∧
      (∀ n a u : String,
        normalizeTrack ⟨some n, some [⟨some a⟩], some none, some (some u), some ⟨some []⟩⟩ =
          .ok ⟨n, a, none, u, none⟩) := by
  refine ⟨?_, ?_, ?_⟩
  · intro t d ts ds ht hts
    simp only [normalizeTracks, ht, hts]
  · intro t hname ts
    obtain ⟨nm, ar, pv, eu, al⟩ := t
    simp only at hname
    subst hname
    simp only [normalizeTracks, normalizeTrack]
  · intro n a u
    rfl

/-- Witness for C4 (amended) at a single complete record. -/
theorem c4_normalizer_amended_witness :
    normalizeTracks [goodTrack] =
      .ok [⟨"Song", "Artist", none, "https://open.spotify.com/t", none⟩] :=
  c4_normalizer_amended.1 goodTrack
    ⟨"Song", "Artist", none, "https://open.spotify.com/t", none⟩ [] [] rfl rfl

/-- C5 (amended): every response of the four POST handlers of app.py —
`/detect`, `/recommend`, `/signup`, `/forgot-password` — carries a JSON
envelope in which exactly one of a payload field (emotion, songs, uid, link)
or the error message is present, with the success flag true exactly when the
payload is present.  (The claim fails for the remaining routes: see the
counterexample.) -/
theorem c5_envelope_amended :
    (∀ ms imread resize req fs,
        bodyEnvelopeOkB ((detect ms imread resize req fs).1).2 = true) ∧
      (∀ search b, bodyEnvelopeOkB ((recommend search b).1).2 = true) ∧
      (∀ cu su email pw, bodyEnvelopeOkB (signup cu su email pw).2 = true) ∧
      (∀ gl email, bodyEnvelopeOkB (forgotPassword gl email).2 = true) := by
  refine ⟨?_, ?_, ?_, ?_⟩
  · intro ms imread resize req fs
    obtain ⟨img⟩ := req
    cases img with
    | none => rfl
    | some file =>
      simp only [detect]
      cases imread file.content with
      | none => rfl
      | some grid =>
        cases ms with
        | unloaded => rfl
        | loaded predict => rfl
  · intro search b
    cases b with
    | none => rfl
    | some data =>
      simp only [recommend]
      split
      · rfl
      · split
        · rfl
        · simp only [searchResp]
          split
          · rfl
          · split <;> rfl
  · intro cu su email pw
    simp only [signup]
    split
    · rfl
    · split
      · rfl
      · split
        · rfl
        · split <;> rfl
  · intro gl email
    simp only [forgotPassword]
    split
    · rfl
    · split <;> rfl

/-- C5 counterexample: the claim quantifies over every endpoint, but the
`/health` route answers with the bare text body "OK" (no envelope at all),
and the `/` and `/callback` routes answer `{"message": ...}` with no success
flag, no payload field and no error. -/
theorem c5_envelope_counterexample :
    bodyEnvelopeOkB healthRoute.2 = false ∧ healthRoute.2 = Body.text "OK" ∧
      bodyEnvelopeOkB home.2 = false ∧ bodyEnvelopeOkB spotifyCallbackRoute.2 = false :=
  ⟨rfl, rfl, rfl, rfl⟩

/-- C6: a POST to `/detect` without an `image` file field answers the 400
envelope `{success: false, error: "No image uploaded"}`, and an image that
`cv2.imread` cannot decode answers the 400 envelope
`{success: false, error: "Invalid image format"}` — both client faults,
neither a 500 — whatever the model state, decoder, resize and prior files. -/
theorem c6_detect_client_faults :
    (∀ ms imread resize fs,
        (detect ms imread resize ⟨none⟩ fs).1 =
          (400, .json (errBody "No image uploaded"))) ∧
      (∀ ms imread resize fs (file : UploadedFile), imread file.content = none →
        (detect ms imread resize ⟨some file⟩ fs).1 =
          (400, .json (errBody "Invalid image format"))) := by
  constructor
  · intro ms imread resize fs
    rfl
  · intro ms imread resize fs file h
    simp only [detect, h]

/-- Witness for C6 at a concrete undecodable upload. -/
theorem c6_detect_client_faults_witness :
    (detect ModelState.unloaded (fun _ => none) resizeW
        ⟨some ⟨some "a.jpg", [1, 2, 3]⟩⟩ []).1 =
      (400, .json (errBody "Invalid image format")) :=
  c6_detect_client_faults.2 ModelState.unloaded (fun _ => none) resizeW []
    ⟨some "a.jpg", [1, 2, 3]⟩ rfl

/-- C7: a POST to `/recommend` whose JSON body carries no `emotion` key
answers the client-fault 400 envelope `{success: false, error: "Emotion not
provided"}` and the catalog client is never invoked — the recorded list of
catalog calls is empty, so no query string is ever used. -/
theorem c7_recommend_missing_emotion :
    ∀ (search : String → Except String (List RawTrack)) (l a : Option String),
      recommend search (some ⟨none, l, a⟩) =
        ((400, .json (errBody "Emotion not provided")), []) := by
  intro search l a
  rfl

/-- C8 (code-bug evidence): with the classifier unloaded (startup load
failure), a POST to `/detect` with a decodable image is not short-circuited
to a ServiceUnavailable condition: the handler still saves the upload and
runs decode, and only fails when the classification stage is reached, with
the generic 500 envelope carrying the Python NameError text; an undecodable
image still takes the ordinary 400 decode path, confirming no unloaded-model
guard runs before the pipeline. -/
theorem c8_unloaded_model_eval :
    detect ModelState.unloaded imreadW resizeW reqW [] =
      ((500, .json (errBody "name 'model' is not defined")),
        ["/tmp/uploads/face.jpg"]) ∧
      detect ModelState.unloaded (fun _ => none) resizeW reqW [] =
        ((400, .json (errBody "Invalid image format")), ["/tmp/uploads/face.jpg"]) :=
  ⟨rfl, rfl⟩

/-- C9 (code-bug evidence): on every exit path that passes the save step —
success, unloaded-model 500, and undecodable-image 400 — the uploaded file
saved at `/tmp/uploads/face.jpg` is still on disk when the request ends:
the handler never deletes it. -/
theorem c9_temp_file_persists_eval :
    (detect (ModelState.loaded predictW) imreadW resizeW reqW []).2 =
        ["/tmp/uploads/face.jpg"] ∧
      (detect ModelState.unloaded imreadW resizeW reqW []).2 =
        ["/tmp/uploads/face.jpg"] ∧
      (detect (ModelState.loaded predictW) (fun _ => none) resizeW reqW []).2 =
        ["/tmp/uploads/face.jpg"] :=
  ⟨rfl, rfl, rfl⟩

/-- C10: `/recommend` does not validate the emotion against the 7-label
enumeration — any non-empty string (here "Bored", not an emotion label) is
interpolated verbatim into the catalog query — while an empty-string emotion
is rejected with the 400 "Emotion not provided" envelope, behaving exactly
as an absent field. -/
theorem c10_emotion_not_validated :
    (∀ (search : String → Except String (List RawTrack)) (l a : Option String),
        recommend search (some ⟨some "", l, a⟩) = recommend search (some ⟨none, l, a⟩) ∧
          recommend search (some ⟨some "", l, a⟩) =
            ((400, .json (errBody "Emotion not provided")), [])) ∧
      (∀ (search : String → Except String (List RawTrack)) (e : String)
          (l a : Option String), e ≠ "" →
        (recommend search (some ⟨some e, l, a⟩)).2 =
          [buildQuery e (l.getD "english") (a.getD "")]) ∧
      "Bored" ∉ emotion_labels := by
  refine ⟨?_, ?_, by decide⟩
  · intro search l a
    exact ⟨rfl, rfl⟩
  · intro search e l a he
    exact recommend_calls_eq search e l a he

/-- Witness for C10: "Bored" is not one of the 7 labels yet is sent verbatim
to the catalog client. -/
theorem c10_emotion_not_validated_witness :
    (recommend searchW (some ⟨some "Bored", none, none⟩)).2 =
      [buildQuery "Bored" ((none : Option String).getD "english")
        ((none : Option String).getD "")] :=
  c10_emotion_not_validated.2.1 searchW "Bored" none none (by decide)

end MusicBackend
